import Mathlib

/-!
Verification development for the hyperliquid-cli caching daemon.

This file gives a shallow embedding, in Lean 4, of the core of the daemon:
the timestamped cache (`ServerCache`), its status computation, the RPC
dispatcher (`handle_request`), the per-connection read-dispatch-write loop
(`handle_connection`), the spot refresh cycle and the secondary-venue
derivation of the perp-contexts refresh cycle (from `spawn_pollers`), and
the RPC client's request-correlation loop (`read_matching` and the
per-connection request-id counter, from `ServerClient::request`).

Modelling conventions:
- Millisecond timestamps (Rust `i64`) are `Int`; the client's request-id
  counter (Rust `u64`) is a `Nat` reduced modulo `2 ^ 64` on increment.
- Every call of `clock.now_ms()` inside one handler invocation is modelled
  by an explicit `now : Int` argument (the clock is held fixed during a
  single handler run); where the source samples the clock at two distinct
  points of a refresh cycle, the model takes two arguments `t1 t2`.
- `HashMap<String, String>` (the mids map) is an association list
  `List (String × String)` with first-match lookup; `HashSet` followed by
  `sort` is modelled as `List.dedup` followed by `List.insertionSort`.
- `serde_json::to_value` applied to a slot's payload is modelled by the
  corresponding injective constructor of `RpcResult`; payload types the
  dispatcher never inspects are opaque type parameters `π γ δ`.
- The dispatcher only ever acquires read locks on the cache; the embedding
  makes this explicit by threading the cache value through `handle_request`
  and returning it alongside the response and the shutdown flag.
-/

/-- Minimal JSON value type, standing in for `serde_json::Value` where the
dispatcher actually inspects request parameters. -/
inductive JsonVal where
  | null : JsonVal
  | bool (b : Bool) : JsonVal
  | num (n : Int) : JsonVal
  | str (s : String) : JsonVal
  | arr (xs : List JsonVal) : JsonVal
  | obj (kvs : List (String × JsonVal)) : JsonVal
deriving Repr

/-- Rust `serde_json::Value::get(key)`: field lookup on an object, `none` on
any other value. -/
def JsonVal.get (j : JsonVal) (k : String) : Option JsonVal :=
  match j with
  | .obj kvs => kvs.lookup k
  | _ => none

/-- Rust `serde_json::Value::as_str`. -/
def JsonVal.as_str : JsonVal → Option String
  | .str s => some s
  | _ => none

/-- One timestamped cache slot value: `CacheEntry<T> { data, updated_at }`. -/
structure CacheEntry (T : Type) where
  data : T
  updatedAt : Int
deriving Repr, DecidableEq

/-- Per-asset perp metadata (`PerpAssetMeta` in `hl_api.rs`). -/
structure PerpAssetMeta where
  szDecimals : Nat
  name : String
  maxLeverage : Nat
  onlyIsolated : Bool
  isDelisted : Bool
deriving Repr, DecidableEq

/-- Per-venue perp metadata (`PerpMeta` in `hl_api.rs`); the opaque
`margin_tables` JSON blob is never read by the daemon and is omitted. The
source field `universe` is spelled `universe_` because `universe` is a Lean
keyword. -/
structure PerpMeta where
  universe_ : List PerpAssetMeta
  collateralToken : Nat
deriving Repr, DecidableEq

/-- `AllDexsAssetCtxsEvent { ctxs: Vec<(String, Vec<PerpAssetCtx>)> }`; the
per-asset context type is the opaque parameter `π`. -/
structure AllDexsAssetCtxsEvent (π : Type) where
  ctxs : List (String × List π)
deriving Repr, DecidableEq

/-- The daemon's cache: five independent optional timestamped slots
(`ServerCache` in `hl-server.rs`, minus the clock, which the model passes
explicitly). `π` is the opaque per-asset perp context type, `γ` the opaque
spot metadata type, `δ` the opaque spot asset-context type. -/
structure ServerCache (π γ δ : Type) where
  mids : Option (CacheEntry (List (String × String)))
  assetCtxs : Option (CacheEntry (AllDexsAssetCtxsEvent π))
  perpMetas : Option (CacheEntry (List PerpMeta))
  spotMeta : Option (CacheEntry γ)
  spotCtxs : Option (CacheEntry δ)
deriving Repr, DecidableEq

/-- `ServerCache::new`: all five slots start absent. -/
def ServerCache.new {π γ δ : Type} : ServerCache π γ δ :=
  { mids := none, assetCtxs := none, perpMetas := none,
    spotMeta := none, spotCtxs := none }

/-- `ServerCache::set_mids`, with the clock sample passed explicitly. -/
def ServerCache.set_mids {π γ δ : Type} (c : ServerCache π γ δ) (now : Int)
    (data : List (String × String)) : ServerCache π γ δ :=
  { c with mids := some { data := data, updatedAt := now } }

/-- `ServerCache::set_asset_ctxs`. -/
def ServerCache.set_asset_ctxs {π γ δ : Type} (c : ServerCache π γ δ) (now : Int)
    (data : AllDexsAssetCtxsEvent π) : ServerCache π γ δ :=
  { c with assetCtxs := some { data := data, updatedAt := now } }

/-- `ServerCache::set_perp_metas`. -/
def ServerCache.set_perp_metas {π γ δ : Type} (c : ServerCache π γ δ) (now : Int)
    (data : List PerpMeta) : ServerCache π γ δ :=
  { c with perpMetas := some { data := data, updatedAt := now } }

/-- `ServerCache::set_spot_meta`. -/
def ServerCache.set_spot_meta {π γ δ : Type} (c : ServerCache π γ δ) (now : Int)
    (data : γ) : ServerCache π γ δ :=
  { c with spotMeta := some { data := data, updatedAt := now } }

/-- `ServerCache::set_spot_ctxs`. -/
def ServerCache.set_spot_ctxs {π γ δ : Type} (c : ServerCache π γ δ) (now : Int)
    (data : δ) : ServerCache π γ δ :=
  { c with spotCtxs := some { data := data, updatedAt := now } }

/-- `CacheStatus` from `server/types.rs`: per-slot presence and age. -/
structure CacheStatus where
  has_mids : Bool
  has_asset_ctxs : Bool
  has_perp_metas : Bool
  has_spot_meta : Bool
  has_spot_asset_ctxs : Bool
  mids_age : Option Int
  asset_ctxs_age : Option Int
  perp_metas_age : Option Int
  spot_meta_age : Option Int
  spot_asset_ctxs_age : Option Int
deriving Repr, DecidableEq

/-- `ServerStatus` from `server/types.rs`. -/
structure ServerStatus where
  running : Bool
  testnet : Bool
  connected : Bool
  startedAt : Int
  uptime : Int
  cache : CacheStatus
deriving Repr, DecidableEq

/-- `ServerCache::status`: one clock sample `now`, then presence and age of
each of the five slots. -/
def ServerCache.status {π γ δ : Type} (c : ServerCache π γ δ) (now : Int) :
    CacheStatus :=
  { has_mids := c.mids.isSome
    has_asset_ctxs := c.assetCtxs.isSome
    has_perp_metas := c.perpMetas.isSome
    has_spot_meta := c.spotMeta.isSome
    has_spot_asset_ctxs := c.spotCtxs.isSome
    mids_age := c.mids.map (fun e => now - e.updatedAt)
    asset_ctxs_age := c.assetCtxs.map (fun e => now - e.updatedAt)
    perp_metas_age := c.perpMetas.map (fun e => now - e.updatedAt)
    spot_meta_age := c.spotMeta.map (fun e => now - e.updatedAt)
    spot_asset_ctxs_age := c.spotCtxs.map (fun e => now - e.updatedAt) }

/-- `ServerCache::is_connected`: the mids slot is populated and strictly
younger than 5000 ms. -/
def ServerCache.is_connected {π γ δ : Type} (c : ServerCache π γ δ) (now : Int) :
    Bool :=
  (c.mids.map (fun e => decide (now - e.updatedAt < 5000))).getD false

/-- The wire request `RpcRequest { id, method, params }`. -/
structure RpcRequest where
  id : String
  method : String
  params : Option JsonVal
deriving Repr

/-- The possible `result` payloads of a response; each constructor stands for
`serde_json::to_value` of the corresponding typed value. -/
inductive RpcResult (π γ δ : Type) where
  | prices (m : List (String × String)) : RpcResult π γ δ
  | assetCtxs (d : AllDexsAssetCtxsEvent π) : RpcResult π γ δ
  | perpMetas (d : List PerpMeta) : RpcResult π γ δ
  | spotMeta (d : γ) : RpcResult π γ δ
  | spotCtxs (d : δ) : RpcResult π γ δ
  | status (s : ServerStatus) : RpcResult π γ δ
  | ok : RpcResult π γ δ
deriving Repr, DecidableEq

/-- The wire response `RpcResponse { id, result, cached_at, error }`. -/
structure RpcResponse (π γ δ : Type) where
  id : String
  result : Option (RpcResult π γ δ)
  cachedAt : Option Int
  error : Option String
deriving Repr, DecidableEq

/-- `response_ok(id, result, cached_at)`. -/
def response_ok {π γ δ : Type} (id : String) (result : RpcResult π γ δ)
    (cachedAt : Option Int) : RpcResponse π γ δ :=
  { id := id, result := some result, cachedAt := cachedAt, error := none }

/-- `response_err(id, error)`. -/
def response_err {π γ δ : Type} (id : String) (error : String) :
    RpcResponse π γ δ :=
  { id := id, result := none, cachedAt := none, error := some error }

/-- Rust `str::to_ascii_uppercase`. `Char.toUpper` uppercases exactly the
ASCII lowercase range and leaves every other character unchanged, matching
the Rust function; it is applied characterwise so the result is computable
by kernel reduction. -/
def to_ascii_uppercase (s : String) : String :=
  String.mk (s.data.map Char.toUpper)

/-- The coin extraction chain of the `getPrices` arm:
`req.params.as_ref().and_then(|p| p.get("coin")).and_then(|v| v.as_str())`. -/
def extract_coin (params : Option JsonVal) : Option String :=
  (params.bind (fun p => p.get "coin")).bind JsonVal.as_str

/-- The dispatcher `handle_request`. It returns the response, the cache
(unchanged on every path: the source only acquires read locks here), and the
should-shutdown flag. `now` models the clock samples taken while serving
`getStatus`. -/
def handle_request {π γ δ : Type} (req : RpcRequest) (cache : ServerCache π γ δ)
    (testnet : Bool) (startedAt : Int) (now : Int) :
    RpcResponse π γ δ × ServerCache π γ δ × Bool :=
  match req.method with
  | "getPrices" =>
    let coin := extract_coin req.params
    match cache.mids with
    | none => (response_err req.id "No data available", cache, false)
    | some entry =>
      match coin with
      | some c =>
        let coinUpper := to_ascii_uppercase c
        match entry.data.lookup coinUpper with
        | none => (response_err req.id ("Coin not found: " ++ c), cache, false)
        | some price =>
          (response_ok req.id (RpcResult.prices [(coinUpper, price)])
            (some entry.updatedAt), cache, false)
      | none =>
        (response_ok req.id (RpcResult.prices entry.data) (some entry.updatedAt),
          cache, false)
  | "getAssetCtxs" =>
    match cache.assetCtxs with
    | none => (response_err req.id "No data available", cache, false)
    | some entry =>
      (response_ok req.id (RpcResult.assetCtxs entry.data) (some entry.updatedAt),
        cache, false)
  | "getPerpMeta" =>
    match cache.perpMetas with
    | none => (response_err req.id "No data available", cache, false)
    | some entry =>
      (response_ok req.id (RpcResult.perpMetas entry.data) (some entry.updatedAt),
        cache, false)
  | "getSpotMeta" =>
    match cache.spotMeta with
    | none => (response_err req.id "No data available", cache, false)
    | some entry =>
      (response_ok req.id (RpcResult.spotMeta entry.data) (some entry.updatedAt),
        cache, false)
  | "getSpotAssetCtxs" =>
    match cache.spotCtxs with
    | none => (response_err req.id "No data available", cache, false)
    | some entry =>
      (response_ok req.id (RpcResult.spotCtxs entry.data) (some entry.updatedAt),
        cache, false)
  | "getStatus" =>
    let cacheStatus := cache.status now
    let st : ServerStatus :=
      { running := true
        testnet := testnet
        connected := cache.is_connected now
        startedAt := startedAt
        uptime := now - startedAt
        cache := cacheStatus }
    (response_ok req.id (RpcResult.status st) none, cache, false)
  | "shutdown" => (response_ok req.id RpcResult.ok none, cache, true)
  | other => (response_err req.id ("Unknown method: " ++ other), cache, false)

/-- One line read by `handle_connection`: whitespace-only (skipped), a line
that fails to parse as `RpcRequest` (malformed), or a parsed request. The end
of the list models EOF. -/
inductive ConnLine where
  | emptyLine : ConnLine
  | malformed : ConnLine
  | request (r : RpcRequest) : ConnLine
deriving Repr

/-- One observable action of the connection loop, in order: writing and
flushing one response line, or broadcasting the shutdown signal. -/
inductive IoEvent (π γ δ : Type) where
  | writeResp (r : RpcResponse π γ δ) : IoEvent π γ δ
  | sendShutdown : IoEvent π γ δ
deriving Repr, DecidableEq

/-- The per-connection read-dispatch-write loop of `handle_connection`,
as the ordered trace of its writes and shutdown broadcast. A dispatched
shutdown writes and flushes its response, then broadcasts, then breaks. -/
def handle_connection {π γ δ : Type} (testnet : Bool) (startedAt now : Int) :
    ServerCache π γ δ → List ConnLine → List (IoEvent π γ δ)
  | _, [] => []
  | cache, ConnLine.emptyLine :: rest =>
    handle_connection testnet startedAt now cache rest
  | cache, ConnLine.malformed :: rest =>
    IoEvent.writeResp (response_err "0" "Invalid JSON") ::
      handle_connection testnet startedAt now cache rest
  | cache, ConnLine.request r :: rest =>
    let out := handle_request r cache testnet startedAt now
    if out.2.2 then
      [IoEvent.writeResp out.1, IoEvent.sendShutdown]
    else
      IoEvent.writeResp out.1 ::
        handle_connection testnet startedAt now out.2.1 rest

/-- One spot refresh cycle: under a single write acquisition, replace the
spot metadata slot (clock sample `t1`), then the spot contexts slot (clock
sample `t2`). -/
def spot_refresh {π γ δ : Type} (c : ServerCache π γ δ) (t1 t2 : Int)
    (meta : γ) (ctxs : δ) : ServerCache π γ δ :=
  (c.set_spot_meta t1 meta).set_spot_ctxs t2 ctxs

/-- Characters strictly before the first colon of a character list, or `none`
when no colon occurs. -/
def chars_before_colon : List Char → Option (List Char)
  | [] => none
  | c :: rest =>
    if c = ':' then some [] else (chars_before_colon rest).map (fun l => c :: l)

/-- Rust `name.split_once(':').map(|(p, _)| p)`: the text before the first
colon, or `none` when the name has no colon. -/
def text_before_colon (s : String) : Option String :=
  (chars_before_colon s.data).map String.mk

/-- The venue identifier derived from one metadata entry:
`perp_meta.universe.first().and_then(|m| m.name.split_once(':')...)`. -/
def dex_of_meta (m : PerpMeta) : Option String :=
  m.universe_.head?.bind (fun a => text_before_colon a.name)

/-- The venue identifiers contributed by the metadata entries after index 0,
in entry order (`if meta_index == 0 { continue; }` then the per-entry
derivation, skipping entries that yield none). -/
def dex_candidates (metas : List PerpMeta) : List String :=
  (metas.enum.filter (fun p => p.1 != 0)).filterMap (fun p => dex_of_meta p.2)

/-- The secondary venue list one perp-contexts cycle derives from the cached
perp-metadata slot: collect candidates into a set, then sort. An absent slot
contributes nothing. -/
def derive_dexes (slot : Option (CacheEntry (List PerpMeta))) : List String :=
  match slot with
  | none => List.insertionSort (· ≤ ·) ([] : List String).dedup
  | some entry =>
    List.insertionSort (· ≤ ·) (dex_candidates entry.data).dedup

/-- The venues whose contexts one perp-contexts cycle fetches, in order: the
primary venue (named `""`) first, then each derived secondary venue. -/
def queried_venues (slot : Option (CacheEntry (List PerpMeta))) : List String :=
  "" :: derive_dexes slot

/-- One line the client's reply loop consumes: a parsed response, EOF
(`read == 0`), or a line that fails to parse. An exhausted list models the
5-second timeout elapsing with no further line. -/
inductive ClientLine (π γ δ : Type) where
  | parsed (r : RpcResponse π γ δ) : ClientLine π γ δ
  | eof : ClientLine π γ δ
  | garbage (s : String) : ClientLine π γ δ
deriving Repr, DecidableEq

/-- The client-visible failures of `ServerClient::request`. -/
inductive ClientError where
  | timeout : ClientError
  | connectionClosed : ClientError
  | invalidResponse (line : String) : ClientError
  | server (msg : String) : ClientError
deriving Repr, DecidableEq

/-- The reply-correlation loop of `ServerClient::request`: read lines,
skipping parsed responses whose id differs from the outstanding request's id,
until a match arrives (an `error` field on the match becomes a failure with
that exact message), EOF, a parse failure, or the timeout. -/
def read_matching {π γ δ : Type} (id : String) :
    List (ClientLine π γ δ) → Except ClientError (RpcResponse π γ δ)
  | [] => Except.error ClientError.timeout
  | ClientLine.eof :: _ => Except.error ClientError.connectionClosed
  | ClientLine.garbage s :: _ => Except.error (ClientError.invalidResponse s)
  | ClientLine.parsed r :: rest =>
    if r.id == id then
      match r.error with
      | some e => Except.error (ClientError.server e)
      | none => Except.ok r
    else
      read_matching id rest

/-- `self.request_id += 1` on the `u64` counter. -/
def next_request_id (requestId : Nat) : Nat :=
  (requestId + 1) % 2 ^ 64

/-- The counter value after `n` requests on a fresh connection (the counter
starts at 0 and each request increments it before use). -/
def request_id_after : Nat → Nat
  | 0 => 0
  | n + 1 => next_request_id (request_id_after n)

example : extract_coin (some (JsonVal.obj [("coin", JsonVal.str "btc")])) = some "btc" := rfl
example : to_ascii_uppercase "btc" = "BTC" := by decide
example : text_before_colon "xyz:ABC" = some "xyz" := by decide
example : text_before_colon "ABC" = none := by decide

/-- C1: with the mids slot populated and a string `params.coin`, `getPrices`
uppercases the input (ASCII) and does an exact-match lookup: an absent key
yields the error `"Coin not found: {original-case input}"`, and a present key
yields the singleton map from the uppercased key to its price with `cachedAt`
equal to the mids slot's `updatedAt`. -/
theorem c1_getPrices_coin {π γ δ : Type} (cache : ServerCache π γ δ)
    (id : String) (p : Option JsonVal) (t : Bool) (sa now : Int)
    (entry : CacheEntry (List (String × String))) (c : String)
    (hm : cache.mids = some entry) (hc : extract_coin p = some c) :
    (List.lookup (to_ascii_uppercase c) entry.data = none →
      handle_request ⟨id, "getPrices", p⟩ cache t sa now =
        (response_err id ("Coin not found: " ++ c), cache, false)) ∧
    (∀ price, List.lookup (to_ascii_uppercase c) entry.data = some price →
      handle_request ⟨id, "getPrices", p⟩ cache t sa now =
        (response_ok id (RpcResult.prices [(to_ascii_uppercase c, price)])
          (some entry.updatedAt), cache, false)) := by
  constructor
  · intro hl
    simp [handle_request, hm, hc, hl]
  · intro price hl
    simp [handle_request, hm, hc, hl]

/-- Witness for C1 on scenario B of the spec: mids `{BTC: 50000, ETH: 3000}`
cached at 123, querying coin `"btc"` and coin `"zzz"`. -/
theorem c1_getPrices_coin_witness :
    (handle_request (π := Unit) (γ := Unit) (δ := Unit)
        ⟨"3", "getPrices", some (JsonVal.obj [("coin", JsonVal.str "btc")])⟩
        { ServerCache.new with
          mids := some ⟨[("BTC", "50000"), ("ETH", "3000")], 123⟩ }
        false 0 200 =
      (response_ok "3" (RpcResult.prices [("BTC", "50000")]) (some 123),
        { ServerCache.new with
          mids := some ⟨[("BTC", "50000"), ("ETH", "3000")], 123⟩ }, false)) ∧
    (handle_request (π := Unit) (γ := Unit) (δ := Unit)
        ⟨"4", "getPrices", some (JsonVal.obj [("coin", JsonVal.str "zzz")])⟩
        { ServerCache.new with
          mids := some ⟨[("BTC", "50000"), ("ETH", "3000")], 123⟩ }
        false 0 200 =
      (response_err "4" "Coin not found: zzz",
        { ServerCache.new with
          mids := some ⟨[("BTC", "50000"), ("ETH", "3000")], 123⟩ }, false)) := by
  have h3 := c1_getPrices_coin (π := Unit) (γ := Unit) (δ := Unit)
    { ServerCache.new with
      mids := some ⟨[("BTC", "50000"), ("ETH", "3000")], 123⟩ }
    "3" (some (JsonVal.obj [("coin", JsonVal.str "btc")])) false 0 200
    ⟨[("BTC", "50000"), ("ETH", "3000")], 123⟩ "btc" rfl rfl
  have h4 := c1_getPrices_coin (π := Unit) (γ := Unit) (δ := Unit)
    { ServerCache.new with
      mids := some ⟨[("BTC", "50000"), ("ETH", "3000")], 123⟩ }
    "4" (some (JsonVal.obj [("coin", JsonVal.str "zzz")])) false 0 200
    ⟨[("BTC", "50000"), ("ETH", "3000")], 123⟩ "zzz" rfl rfl
  exact ⟨h3.2 "50000" (by decide), h4.1 (by decide)⟩

/-- C2: each slot-reading method returns the corresponding slot's data
verbatim with `cachedAt` equal to that slot's `updatedAt` when the slot is
populated, and exactly the error `"No data available"` (no result, no
`cachedAt`) when the slot is absent; `getPrices` behaves this way when no
coin parameter is given. -/
theorem c2_slot_reads {π γ δ : Type} (cache : ServerCache π γ δ)
    (id : String) (p : Option JsonVal) (t : Bool) (sa now : Int) :
    (response_err (π := π) (γ := γ) (δ := δ) id "No data available" =
      { id := id, result := none, cachedAt := none,
        error := some "No data available" }) ∧
    (extract_coin p = none →
      (cache.mids = none →
        handle_request ⟨id, "getPrices", p⟩ cache t sa now =
          (response_err id "No data available", cache, false)) ∧
      (∀ e, cache.mids = some e →
        handle_request ⟨id, "getPrices", p⟩ cache t sa now =
          (response_ok id (RpcResult.prices e.data) (some e.updatedAt),
            cache, false))) ∧
    ((cache.assetCtxs = none →
        handle_request ⟨id, "getAssetCtxs", p⟩ cache t sa now =
          (response_err id "No data available", cache, false)) ∧
      (∀ e, cache.assetCtxs = some e →
        handle_request ⟨id, "getAssetCtxs", p⟩ cache t sa now =
          (response_ok id (RpcResult.assetCtxs e.data) (some e.updatedAt),
            cache, false))) ∧
    ((cache.perpMetas = none →
        handle_request ⟨id, "getPerpMeta", p⟩ cache t sa now =
          (response_err id "No data available", cache, false)) ∧
      (∀ e, cache.perpMetas = some e →
        handle_request ⟨id, "getPerpMeta", p⟩ cache t sa now =
          (response_ok id (RpcResult.perpMetas e.data) (some e.updatedAt),
            cache, false))) ∧
    ((cache.spotMeta = none →
        handle_request ⟨id, "getSpotMeta", p⟩ cache t sa now =
          (response_err id "No data available", cache, false)) ∧
      (∀ e, cache.spotMeta = some e →
        handle_request ⟨id, "getSpotMeta", p⟩ cache t sa now =
          (response_ok id (RpcResult.spotMeta e.data) (some e.updatedAt),
            cache, false))) ∧
    ((cache.spotCtxs = none →
        handle_request ⟨id, "getSpotAssetCtxs", p⟩ cache t sa now =
          (response_err id "No data available", cache, false)) ∧
      (∀ e, cache.spotCtxs = some e →
        handle_request ⟨id, "getSpotAssetCtxs", p⟩ cache t sa now =
          (response_ok id (RpcResult.spotCtxs e.data) (some e.updatedAt),
            cache, false))) := by
  refine ⟨rfl, fun hc => ⟨fun h => ?_, fun e h => ?_⟩,
    ⟨fun h => ?_, fun e h => ?_⟩, ⟨fun h => ?_, fun e h => ?_⟩,
    ⟨fun h => ?_, fun e h => ?_⟩, ⟨fun h => ?_, fun e h => ?_⟩⟩ <;>
    simp_all [handle_request]

/-- Witness for C2: the empty cache answers `"No data available"` on every
slot read, and a mids map set at 123 is returned verbatim. -/
theorem c2_slot_reads_witness :
    (handle_request (π := Unit) (γ := Unit) (δ := Unit)
        ⟨"1", "getPrices", none⟩ ServerCache.new false 0 200 =
      (response_err "1" "No data available", ServerCache.new, false)) ∧
    (handle_request (π := Unit) (γ := Unit) (δ := Unit)
        ⟨"5", "getAssetCtxs", none⟩ ServerCache.new false 0 200 =
      (response_err "5" "No data available", ServerCache.new, false)) ∧
    (handle_request (π := Unit) (γ := Unit) (δ := Unit)
        ⟨"2", "getPrices", none⟩
        { ServerCache.new with
          mids := some ⟨[("BTC", "50000"), ("ETH", "3000")], 123⟩ }
        false 0 200 =
      (response_ok "2" (RpcResult.prices [("BTC", "50000"), ("ETH", "3000")])
          (some 123),
        { ServerCache.new with
          mids := some ⟨[("BTC", "50000"), ("ETH", "3000")], 123⟩ }, false)) := by
  refine ⟨((c2_slot_reads ServerCache.new "1" none false 0 200).2.1 rfl).1 rfl,
    ((c2_slot_reads ServerCache.new "5" none false 0 200).2.2.1).1 rfl,
    ((c2_slot_reads _ "2" none false 0 200).2.1 rfl).2 _ rfl⟩

/-- C3: `getStatus` always succeeds; each reported slot age is `now` minus
the slot's `updatedAt` when populated and absent otherwise; and the reported
`connected` flag is true exactly when the mids slot is populated with age
strictly below 5000 ms, hence false at age exactly 5000 ms. -/
theorem c3_getStatus {π γ δ : Type} (cache : ServerCache π γ δ)
    (id : String) (p : Option JsonVal) (t : Bool) (sa now : Int) :
    (handle_request ⟨id, "getStatus", p⟩ cache t sa now =
      (response_ok id
        (RpcResult.status
          { running := true, testnet := t,
            connected := cache.is_connected now, startedAt := sa,
            uptime := now - sa, cache := cache.status now }) none,
        cache, false)) ∧
    (∀ e, cache.mids = some e →
      (cache.status now).mids_age = some (now - e.updatedAt)) ∧
    (cache.mids = none → (cache.status now).mids_age = none) ∧
    (∀ e, cache.assetCtxs = some e →
      (cache.status now).asset_ctxs_age = some (now - e.updatedAt)) ∧
    (cache.assetCtxs = none → (cache.status now).asset_ctxs_age = none) ∧
    (∀ e, cache.perpMetas = some e →
      (cache.status now).perp_metas_age = some (now - e.updatedAt)) ∧
    (cache.perpMetas = none → (cache.status now).perp_metas_age = none) ∧
    (∀ e, cache.spotMeta = some e →
      (cache.status now).spot_meta_age = some (now - e.updatedAt)) ∧
    (cache.spotMeta = none → (cache.status now).spot_meta_age = none) ∧
    (∀ e, cache.spotCtxs = some e →
      (cache.status now).spot_asset_ctxs_age = some (now - e.updatedAt)) ∧
    (cache.spotCtxs = none → (cache.status now).spot_asset_ctxs_age = none) ∧
    (cache.is_connected now = true ↔
      ∃ e, cache.mids = some e ∧ now - e.updatedAt < 5000) ∧
    (∀ e, cache.mids = some e → now - e.updatedAt = 5000 →
      cache.is_connected now = false) := by
  refine ⟨by simp [handle_request], ?_⟩
  cases hm : cache.mids <;>
    simp_all [ServerCache.status, ServerCache.is_connected]

/-- Witness for C3 on scenario D of the spec: mids set at 0; at `now = 4999`
`connected` is true, at `now = 5000` it is false; scenario C ages also
checked. -/
theorem c3_getStatus_witness :
    ((ServerCache.new (π := Unit) (γ := Unit)
        (δ := Unit)).set_mids 0 [("BTC", "50000")]).is_connected 4999 = true ∧
    ((ServerCache.new (π := Unit) (γ := Unit)
        (δ := Unit)).set_mids 0 [("BTC", "50000")]).is_connected 5000 = false ∧
    (((ServerCache.new (π := Unit) (γ := Unit)
        (δ := Unit)).set_mids 0 [("BTC", "50000")]).status 3500).mids_age =
      some 3500 := by
  have h1 := c3_getStatus
    ((ServerCache.new (π := Unit) (γ := Unit)
      (δ := Unit)).set_mids 0 [("BTC", "50000")]) "7" none false 0 4999
  have h2 := c3_getStatus
    ((ServerCache.new (π := Unit) (γ := Unit)
      (δ := Unit)).set_mids 0 [("BTC", "50000")]) "7" none false 0 5000
  have h3 := c3_getStatus
    ((ServerCache.new (π := Unit) (γ := Unit)
      (δ := Unit)).set_mids 0 [("BTC", "50000")]) "7" none false 0 3500
  obtain ⟨-, -, -, -, -, -, -, -, -, -, -, hiff, -⟩ := h1
  obtain ⟨-, -, -, -, -, -, -, -, -, -, -, -, hbd⟩ := h2
  obtain ⟨-, hage, -⟩ := h3
  exact ⟨hiff.mpr ⟨⟨[("BTC", "50000")], 0⟩, rfl, by decide⟩,
    hbd ⟨[("BTC", "50000")], 0⟩ rfl (by decide),
    hage ⟨[("BTC", "50000")], 0⟩ rfl⟩

/-- Helper: the dispatcher's should-shutdown flag is true exactly for the
method `"shutdown"`. -/
theorem handle_request_flag_iff {π γ δ : Type} (req : RpcRequest)
    (cache : ServerCache π γ δ) (t : Bool) (sa now : Int) :
    (handle_request req cache t sa now).2.2 = true ↔ req.method = "shutdown" := by
  unfold handle_request
  repeat' split <;> (try simp_all)

/-- Helper: dispatching a `"shutdown"` request yields the fixed success
response together with the raised flag and an unchanged cache. -/
theorem handle_request_shutdown_eq {π γ δ : Type} (req : RpcRequest)
    (cache : ServerCache π γ δ) (t : Bool) (sa now : Int)
    (h : req.method = "shutdown") :
    handle_request req cache t sa now =
      (response_ok req.id RpcResult.ok none, cache, true) := by
  unfold handle_request
  repeat' split <;> (try simp_all)

/-- Helper: the dispatcher's `cachedAt` is either absent or, on a success
response, the `updatedAt` of one of the populated cache slots. -/
theorem handle_request_cachedAt_spec {π γ δ : Type} (req : RpcRequest)
    (cache : ServerCache π γ δ) (t : Bool) (sa now : Int) :
    (handle_request req cache t sa now).1.cachedAt = none ∨
    ((handle_request req cache t sa now).1.error = none ∧
      ((∃ e, cache.mids = some e ∧
          (handle_request req cache t sa now).1.cachedAt = some e.updatedAt) ∨
       (∃ e, cache.assetCtxs = some e ∧
          (handle_request req cache t sa now).1.cachedAt = some e.updatedAt) ∨
       (∃ e, cache.perpMetas = some e ∧
          (handle_request req cache t sa now).1.cachedAt = some e.updatedAt) ∨
       (∃ e, cache.spotMeta = some e ∧
          (handle_request req cache t sa now).1.cachedAt = some e.updatedAt) ∨
       (∃ e, cache.spotCtxs = some e ∧
          (handle_request req cache t sa now).1.cachedAt = some e.updatedAt))) := by
  unfold handle_request
  repeat' (first | split | dsimp only)
  all_goals
    first
      | exact Or.inl rfl
      | exact Or.inr ⟨rfl, Or.inl ⟨_, by assumption, rfl⟩⟩
      | exact Or.inr ⟨rfl, Or.inr (Or.inl ⟨_, by assumption, rfl⟩)⟩
      | exact Or.inr ⟨rfl, Or.inr (Or.inr (Or.inl ⟨_, by assumption, rfl⟩))⟩
      | exact Or.inr
          ⟨rfl, Or.inr (Or.inr (Or.inr (Or.inl ⟨_, by assumption, rfl⟩)))⟩
      | exact Or.inr
          ⟨rfl, Or.inr (Or.inr (Or.inr (Or.inr ⟨_, by assumption, rfl⟩)))⟩

/-- C4: every dispatcher response carries exactly one of result and error
(never both, never neither), and a `cachedAt` is present only alongside a
result, with the timestamp equal to the `updatedAt` of one of the populated
cache slots; `getStatus` and `shutdown` responses and all error responses
carry no `cachedAt`. -/
theorem c4_response_exclusivity {π γ δ : Type} (req : RpcRequest)
    (cache : ServerCache π γ δ) (t : Bool) (sa now : Int) :
    ((handle_request req cache t sa now).1.result.isSome =
      (handle_request req cache t sa now).1.error.isNone) ∧
    (∀ ts, (handle_request req cache t sa now).1.cachedAt = some ts →
      (handle_request req cache t sa now).1.error = none ∧
      ((∃ e, cache.mids = some e ∧ ts = e.updatedAt) ∨
       (∃ e, cache.assetCtxs = some e ∧ ts = e.updatedAt) ∨
       (∃ e, cache.perpMetas = some e ∧ ts = e.updatedAt) ∨
       (∃ e, cache.spotMeta = some e ∧ ts = e.updatedAt) ∨
       (∃ e, cache.spotCtxs = some e ∧ ts = e.updatedAt))) ∧
    (req.method = "getStatus" ∨ req.method = "shutdown" →
      (handle_request req cache t sa now).1.cachedAt = none) ∧
    (∀ msg, (handle_request req cache t sa now).1.error = some msg →
      (handle_request req cache t sa now).1.cachedAt = none) := by
  refine ⟨?_, ?_, ?_, ?_⟩
  · unfold handle_request
    repeat' split <;> (try simp [response_ok, response_err])
  · intro ts hts
    rcases handle_request_cachedAt_spec req cache t sa now with hnone | ⟨herr, hd⟩
    · rw [hnone] at hts; exact absurd hts (by simp)
    · refine ⟨herr, ?_⟩
      rcases hd with ⟨e, he, hca⟩ | ⟨e, he, hca⟩ | ⟨e, he, hca⟩ |
        ⟨e, he, hca⟩ | ⟨e, he, hca⟩ <;> rw [hca] at hts <;>
        injection hts with hts
      · exact Or.inl ⟨e, he, hts.symm⟩
      · exact Or.inr (Or.inl ⟨e, he, hts.symm⟩)
      · exact Or.inr (Or.inr (Or.inl ⟨e, he, hts.symm⟩))
      · exact Or.inr (Or.inr (Or.inr (Or.inl ⟨e, he, hts.symm⟩)))
      · exact Or.inr (Or.inr (Or.inr (Or.inr ⟨e, he, hts.symm⟩)))
  · intro h
    unfold handle_request
    repeat' split <;> (try simp_all [response_ok, response_err])
  · intro msg
    unfold handle_request
    repeat' split <;> (try simp_all [response_ok, response_err])

/-- C8: a request whose method is none of the seven known method names
(matched case-sensitively) yields exactly the error
`"Unknown method: {method}"` under the request's id, and leaves the cache
unchanged. -/
theorem c8_unknown_method {π γ δ : Type} (req : RpcRequest)
    (cache : ServerCache π γ δ) (t : Bool) (sa now : Int)
    (h1 : req.method ≠ "getPrices") (h2 : req.method ≠ "getAssetCtxs")
    (h3 : req.method ≠ "getPerpMeta") (h4 : req.method ≠ "getSpotMeta")
    (h5 : req.method ≠ "getSpotAssetCtxs") (h6 : req.method ≠ "getStatus")
    (h7 : req.method ≠ "shutdown") :
    handle_request req cache t sa now =
      (response_err req.id ("Unknown method: " ++ req.method), cache, false) := by
  unfold handle_request
  repeat' split <;> simp_all

/-- Witness for C8: the method `"unknownMethod"` on an empty cache. -/
theorem c8_unknown_method_witness :
    handle_request (π := Unit) (γ := Unit) (δ := Unit)
        ⟨"9", "unknownMethod", none⟩ ServerCache.new false 0 0 =
      (response_err "9" "Unknown method: unknownMethod",
        ServerCache.new, false) := by
  have h := c8_unknown_method (π := Unit) (γ := Unit) (δ := Unit)
    ⟨"9", "unknownMethod", none⟩ ServerCache.new false 0 0
    (by decide) (by decide) (by decide) (by decide) (by decide) (by decide)
    (by decide)
  simpa using h

/-- Witness for C4: a `getStatus` response on a populated cache carries no
`cachedAt`. -/
theorem c4_response_exclusivity_witness :
    (handle_request (π := Unit) (γ := Unit) (δ := Unit)
        ⟨"7", "getStatus", none⟩
        { ServerCache.new with mids := some ⟨[("BTC", "50000")], 123⟩ }
        false 0 2000).1.cachedAt = none :=
  (c4_response_exclusivity ⟨"7", "getStatus", none⟩
    { ServerCache.new with mids := some ⟨[("BTC", "50000")], 123⟩ }
    false 0 2000).2.2.1 (Or.inl rfl)

/-- C9: a malformed request line makes the connection loop write the response
with id `"0"` and error `"Invalid JSON"` (no result, no `cachedAt`) and then
continue serving the remaining lines of the same connection. -/
theorem c9_invalid_json {π γ δ : Type} (t : Bool) (sa now : Int)
    (cache : ServerCache π γ δ) (rest : List ConnLine) :
    handle_connection t sa now cache (ConnLine.malformed :: rest) =
      IoEvent.writeResp (response_err "0" "Invalid JSON") ::
        handle_connection t sa now cache rest ∧
    response_err (π := π) (γ := γ) (δ := δ) "0" "Invalid JSON" =
      { id := "0", result := none, cachedAt := none,
        error := some "Invalid JSON" } := by
  constructor
  · simp [handle_connection]
  · rfl

/-- C5: on one connection, the shutdown broadcast happens exactly when a
shutdown request was dispatched, and whenever it happens the trace ends with
the written-and-flushed success response immediately followed by the
broadcast (response-before-teardown), with no earlier broadcast. -/
theorem c5_shutdown_ordering {π γ δ : Type} (t : Bool) (sa now : Int)
    (cache : ServerCache π γ δ) (lines : List ConnLine) :
    (IoEvent.sendShutdown ∈ handle_connection t sa now cache lines ↔
      ∃ r, ConnLine.request r ∈ lines ∧ r.method = "shutdown") ∧
    (IoEvent.sendShutdown ∈ handle_connection t sa now cache lines →
      ∃ pre resp, handle_connection t sa now cache lines =
          pre ++ [IoEvent.writeResp resp, IoEvent.sendShutdown] ∧
        IoEvent.sendShutdown ∉ pre ∧
        resp.error = none ∧ resp.result = some RpcResult.ok) := by
  induction lines generalizing cache with
  | nil => simp [handle_connection]
  | cons l rest ih =>
    cases l with
    | emptyLine =>
      constructor
      · simpa [handle_connection] using (ih cache).1
      · intro hmem
        simp only [handle_connection] at hmem ⊢
        exact (ih cache).2 hmem
    | malformed =>
      constructor
      · simpa [handle_connection] using (ih cache).1
      · intro hmem
        simp only [handle_connection, List.mem_cons] at hmem
        rcases hmem with h | hmem
        · exact absurd h (by simp)
        · obtain ⟨pre, resp, hEq, hpre, he, hr⟩ := (ih cache).2 hmem
          refine ⟨IoEvent.writeResp (response_err "0" "Invalid JSON") :: pre,
            resp, ?_, ?_, he, hr⟩
          · simp [handle_connection, hEq]
          · simp [hpre]
    | request r =>
      rcases hhr : handle_request r cache t sa now with ⟨resp0, cache2, flag⟩
      have hflag := handle_request_flag_iff r cache t sa now
      rw [hhr] at hflag
      cases flag with
      | true =>
        have hmethod : r.method = "shutdown" := hflag.mp rfl
        have hval := handle_request_shutdown_eq r cache t sa now hmethod
        rw [hhr] at hval
        have hresp : resp0 = response_ok r.id RpcResult.ok none :=
          congrArg Prod.fst hval
        constructor
        · simp only [handle_connection, hhr]
          simp only [List.mem_cons]
          constructor
          · intro _; exact ⟨r, by simp, hmethod⟩
          · intro _; simp
        · intro _
          refine ⟨[], resp0, ?_, by simp, ?_, ?_⟩
          · simp [handle_connection, hhr]
          · rw [hresp]; rfl
          · rw [hresp]; rfl
      | false =>
        have hne : r.method ≠ "shutdown" := by
          intro hc
          exact absurd (hflag.mpr hc) (by simp)
        constructor
        · simp only [handle_connection, hhr, if_neg Bool.false_ne_true,
            List.mem_cons]
          constructor
          · intro hmem
            rcases hmem with h | hmem
            · exact absurd h (by simp)
            · obtain ⟨r2, hr2, hm2⟩ := (ih cache2).1.mp hmem
              exact ⟨r2, Or.inr hr2, hm2⟩
          · rintro ⟨r2, hr2 | hr2, hm2⟩
            · cases hr2; exact absurd hm2 hne
            · exact Or.inr ((ih cache2).1.mpr ⟨r2, hr2, hm2⟩)
        · intro hmem
          simp only [handle_connection, hhr, if_neg Bool.false_ne_true,
            List.mem_cons] at hmem
          rcases hmem with h | hmem
          · exact absurd h (by simp)
          · obtain ⟨pre, resp, hEq, hpre, he, hr⟩ := (ih cache2).2 hmem
            refine ⟨IoEvent.writeResp resp0 :: pre, resp, ?_, ?_, he, hr⟩
            · simp [handle_connection, hhr, hEq]
            · simp [hpre]

/-- Witness for C5: a connection issuing `getStatus` then `shutdown` produces
the success response followed by the broadcast, and its trace contains the
broadcast. -/
theorem c5_shutdown_ordering_witness :
    (IoEvent.sendShutdown ∈ handle_connection (π := Unit) (γ := Unit)
        (δ := Unit) false 0 0 ServerCache.new
        [ConnLine.request ⟨"1", "getStatus", none⟩,
         ConnLine.request ⟨"2", "shutdown", none⟩]) ∧
    (∃ pre resp, handle_connection (π := Unit) (γ := Unit) (δ := Unit)
        false 0 0 ServerCache.new
        [ConnLine.request ⟨"1", "getStatus", none⟩,
         ConnLine.request ⟨"2", "shutdown", none⟩] =
        pre ++ [IoEvent.writeResp resp, IoEvent.sendShutdown] ∧
      IoEvent.sendShutdown ∉ pre ∧
      resp.error = none ∧ resp.result = some RpcResult.ok) := by
  have h := c5_shutdown_ordering (π := Unit) (γ := Unit) (δ := Unit)
    false 0 0 ServerCache.new
    [ConnLine.request ⟨"1", "getStatus", none⟩,
     ConnLine.request ⟨"2", "shutdown", none⟩]
  have hmem := h.1.mpr ⟨⟨"2", "shutdown", none⟩, by simp, rfl⟩
  exact ⟨hmem, h.2 hmem⟩

/-- Helper: membership in the candidate venue list of one refresh cycle. -/
theorem mem_dex_candidates_iff {metas : List PerpMeta} {x : String} :
    x ∈ dex_candidates metas ↔
      ∃ i m, i ≠ 0 ∧ metas.get? i = some m ∧ dex_of_meta m = some x := by
  unfold dex_candidates
  simp only [List.mem_filterMap, List.mem_filter, bne_iff_ne, ne_eq]
  constructor
  · rintro ⟨⟨i, m⟩, ⟨hmem, hi⟩, hd⟩
    exact ⟨i, m, hi, by simpa [List.get?_eq_getElem?] using
      (List.mk_mem_enum_iff_getElem?).mp hmem, hd⟩
  · rintro ⟨i, m, hi, hg, hd⟩
    exact ⟨⟨i, m⟩, ⟨(List.mk_mem_enum_iff_getElem?).mpr
      (by simpa [List.get?_eq_getElem?] using hg), hi⟩, hd⟩

/-- C7: the secondary venue set one perp-contexts cycle derives is sorted and
duplicate-free, and contains exactly the text-before-colon prefixes of the
first asset names of the cached metadata entries after index 0 (entries with
no first asset or with no colon contribute nothing); an absent metadata slot
derives the empty set, so only the primary venue is queried. -/
theorem c7_derive_dexes (slot : Option (CacheEntry (List PerpMeta))) :
    List.Sorted (· ≤ ·) (derive_dexes slot) ∧
    (derive_dexes slot).Nodup ∧
    (∀ x, x ∈ derive_dexes slot ↔
      ∃ entry, slot = some entry ∧
        ∃ i m a, i ≠ 0 ∧ entry.data.get? i = some m ∧
          m.universe_.head? = some a ∧ text_before_colon a.name = some x) ∧
    derive_dexes none = [] ∧ queried_venues none = [""] := by
  refine ⟨?_, ?_, ?_, rfl, rfl⟩
  · cases slot <;> exact List.sorted_insertionSort _ _
  · cases slot <;>
      exact ((List.perm_insertionSort _ _).nodup_iff).mpr (List.nodup_dedup _)
  · intro x
    cases slot with
    | none => simp [derive_dexes, List.mem_insertionSort]
    | some entry =>
      simp only [derive_dexes, List.mem_insertionSort, List.mem_dedup,
        mem_dex_candidates_iff, dex_of_meta, Option.bind_eq_some,
        Option.some.injEq]
      constructor
      · rintro ⟨i, m, hi, hg, a, ha, hp⟩
        exact ⟨entry, rfl, i, m, a, hi, hg, ha, hp⟩
      · rintro ⟨entry2, heq, i, m, a, hi, hg, ha, hp⟩
        cases heq
        exact ⟨i, m, hi, hg, a, ha, hp⟩

/-- C6: on one client connection the request ids are the decimal strings of a
counter starting at 1 and incremented by 1 per request; the reply loop skips
responses whose id differs from the outstanding id, an exhausted stream is
the timeout failure, and a matched response with an error field becomes a
failure carrying that exact message while a matched clean response is
returned. -/
theorem c6_client_correlation {π γ δ : Type} :
    (∀ n : Nat, n < 2 ^ 64 → request_id_after n = n) ∧
    (∀ n : Nat, 0 < n → n < 2 ^ 64 →
      toString (request_id_after n) = toString n) ∧
    (∀ (id : String) (junk : List (RpcResponse π γ δ))
        (rest : List (ClientLine π γ δ)),
      (∀ r ∈ junk, r.id ≠ id) →
      read_matching id (junk.map ClientLine.parsed ++ rest) =
        read_matching id rest) ∧
    (∀ id : String, read_matching (π := π) (γ := γ) (δ := δ) id [] =
      Except.error ClientError.timeout) ∧
    (∀ (id : String) (r : RpcResponse π γ δ)
        (rest : List (ClientLine π γ δ)) (e : String),
      r.id = id → r.error = some e →
      read_matching id (ClientLine.parsed r :: rest) =
        Except.error (ClientError.server e)) ∧
    (∀ (id : String) (r : RpcResponse π γ δ)
        (rest : List (ClientLine π γ δ)),
      r.id = id → r.error = none →
      read_matching id (ClientLine.parsed r :: rest) = Except.ok r) := by
  have hcounter : ∀ n : Nat, n < 2 ^ 64 → request_id_after n = n := by
    intro n
    induction n with
    | zero => intro _; rfl
    | succ k ihk =>
      intro hk
      have hk2 : k < 2 ^ 64 := Nat.lt_of_succ_lt hk
      show next_request_id (request_id_after k) = k + 1
      rw [ihk hk2]
      exact Nat.mod_eq_of_lt hk
  refine ⟨hcounter, fun n _ hn => by rw [hcounter n hn], ?_, fun _ => rfl,
    ?_, ?_⟩
  · intro id junk rest hjunk
    induction junk with
    | nil => rfl
    | cons r junk ihj =>
      have hne : r.id ≠ id := hjunk r (by simp)
      have hrest : ∀ s ∈ junk, s.id ≠ id := fun s hs => hjunk s (by simp [hs])
      simp only [List.map_cons, List.cons_append, read_matching,
        beq_iff_eq, if_neg hne]
      exact ihj hrest
  · intro id r rest e hid herr
    simp [read_matching, beq_iff_eq, hid, herr]
  · intro id r rest hid herr
    simp [read_matching, beq_iff_eq, hid, herr]

/-- Witness for C6: id `"2"` outstanding, a stale response with id `"1"` is
skipped and the matching error response surfaces its message; an empty
stream times out. -/
theorem c6_client_correlation_witness :
    (read_matching (π := Unit) (γ := Unit) (δ := Unit) "2"
      ([⟨"1", none, none, none⟩].map ClientLine.parsed ++
        [ClientLine.parsed ⟨"2", none, none, some "No data available"⟩]) =
      Except.error (ClientError.server "No data available")) ∧
    (read_matching (π := Unit) (γ := Unit) (δ := Unit) "2" [] =
      Except.error ClientError.timeout) ∧
    request_id_after 2 = 2 := by
  have h := c6_client_correlation (π := Unit) (γ := Unit) (δ := Unit)
  refine ⟨?_, h.2.2.2.1 "2", h.1 2 (by decide)⟩
  rw [h.2.2.1 "2" [⟨"1", none, none, none⟩]
      [ClientLine.parsed ⟨"2", none, none, some "No data available"⟩]
      (by intro r hr; simp at hr; subst hr; decide)]
  exact h.2.2.2.2.1 "2" ⟨"2", none, none, some "No data available"⟩ []
    "No data available" rfl rfl

/-- C10: one spot refresh cycle replaces both spot slots, sampling the clock
independently with the metadata slot set first, so under a monotonic clock
the spot-metadata `updatedAt` is at most the spot-contexts `updatedAt`; the
two timestamps need not be equal. -/
theorem c10_spot_refresh {π γ δ : Type} :
    (∀ (c : ServerCache π γ δ) (t1 t2 : Int) (m : γ) (x : δ), t1 ≤ t2 →
      ∃ em ec, (spot_refresh c t1 t2 m x).spotMeta = some em ∧
        (spot_refresh c t1 t2 m x).spotCtxs = some ec ∧
        em.updatedAt = t1 ∧ ec.updatedAt = t2 ∧
        em.updatedAt ≤ ec.updatedAt) ∧
    (∃ (c : ServerCache Unit Unit Unit) (t1 t2 : Int) (m : Unit) (x : Unit),
      t1 ≤ t2 ∧
      ∃ em ec, (spot_refresh c t1 t2 m x).spotMeta = some em ∧
        (spot_refresh c t1 t2 m x).spotCtxs = some ec ∧
        em.updatedAt ≠ ec.updatedAt) := by
  constructor
  · intro c t1 t2 m x h
    exact ⟨⟨m, t1⟩, ⟨x, t2⟩, rfl, rfl, rfl, rfl, h⟩
  · exact ⟨ServerCache.new, 0, 1, (), (), by decide,
      ⟨(), 0⟩, ⟨(), 1⟩, rfl, rfl, by decide⟩

/-- Witness for C10: a cycle with clock samples 0 and 1 populates both slots
with those timestamps in order. -/
theorem c10_spot_refresh_witness :
    ∃ em ec,
      (spot_refresh (ServerCache.new (π := Unit) (γ := Unit) (δ := Unit))
        0 1 () ()).spotMeta = some em ∧
      (spot_refresh (ServerCache.new (π := Unit) (γ := Unit) (δ := Unit))
        0 1 () ()).spotCtxs = some ec ∧
      em.updatedAt = 0 ∧ ec.updatedAt = 1 ∧ em.updatedAt ≤ ec.updatedAt :=
  (c10_spot_refresh (π := Unit) (γ := Unit) (δ := Unit)).1
    ServerCache.new 0 1 () () (by decide)
